import Mathlib

/-!
Verification of the rule-based query resolver of the Smart-Expense-Visualizer
repository (`chatbot/query_handler.py`), as a shallow embedding in Lean.

Modelling conventions:
* A dataset row carries the values of the `Date`, `Category`, `Amount`, `Note`
  columns; `Option` models a missing cell (pandas `NaN`/`NaT`).  The `Date`
  column holds already-parsed dates because `utils/helpers.load_data` converts
  it with `pd.to_datetime(..., errors="coerce")` before the resolver runs.
* Column presence is tracked by boolean flags (`df.get(col)` returning `None`
  in the source corresponds to the flag being `false`).
* Monetary amounts are embedded as exact rationals (`Q`: integer numerator
  over positive denominator); `₹{x:.2f}` formatting is modelled by `fmt2`
  (round-half-to-even at two decimals).
* The external dataframe library's fixed-width `to_string(index=False)`
  rendering is modelled by `renderTable` (right-justified cells, single-space
  separator); the external date parser's month-name handling is modelled by
  `monthFromName` together with the pandas timestamp range check `tsOk`.
* The loader `load_data()` is called inside the resolver's `try` block; its
  outcome is a parameter of type `Except String (Option Dataset)`:
  `.error e` models an exception escaping the loader, `.ok none` models
  `df is None`.
* The regular-expression searches of the source are implemented character by
  character with Python `re.search` semantics (leftmost start, greedy
  quantifiers with backtracking where the pattern needs it).
-/

set_option maxRecDepth 40000

/-- Single ASCII apostrophe, used to build the source message strings. -/
def apos : String := String.mk [Char.ofNat 39]

/-- Unicode right single quotation mark (U+2019), used in the fallback message. -/
def rquo : String := String.mk [Char.ofNat 8217]

/-- Whitespace set of Python `str.strip` / regex `\s` (ASCII part). -/
def isPySpace (c : Char) : Bool :=
  c == Char.ofNat 32 || c == Char.ofNat 9 || c == Char.ofNat 10 ||
  c == Char.ofNat 13 || c == Char.ofNat 11 || c == Char.ofNat 12

/-- ASCII letter test, the `[a-zA-Z]` character class. -/
def isAsciiAlpha (c : Char) : Bool :=
  (65 ≤ c.toNat && c.toNat ≤ 90) || (97 ≤ c.toNat && c.toNat ≤ 122)

/-- ASCII digit test, the `\d` character class. -/
def isDigitC (c : Char) : Bool := 48 ≤ c.toNat && c.toNat ≤ 57

/-- Lower-case one character (ASCII), as Python `str.lower` does. -/
def lowerC (c : Char) : Char :=
  bif 65 ≤ c.toNat && c.toNat ≤ 90 then Char.ofNat (c.toNat + 32) else c

/-- Upper-case one character (ASCII). -/
def upperC (c : Char) : Char :=
  bif 97 ≤ c.toNat && c.toNat ≤ 122 then Char.ofNat (c.toNat - 32) else c

/-- Lower-case a character list. -/
def lowerL (l : List Char) : List Char := l.map lowerC

/-- Lower-case a string, modelling Python `str.lower`. -/
def lowerS (s : String) : String := String.mk (lowerL s.data)

/-- Python `str.strip` on a character list. -/
def pyStripL (l : List Char) : List Char :=
  ((l.dropWhile isPySpace).reverse.dropWhile isPySpace).reverse

/-- Python `str.strip`. -/
def pyStrip (s : String) : String := String.mk (pyStripL s.data)

/-- Python `str.title` helper: the boolean says whether the previous character
was alphabetic. -/
def titleGo : Bool → List Char → List Char
  | _, [] => []
  | prev, c :: cs =>
    let isA := isAsciiAlpha c
    (bif isA then (bif prev then lowerC c else upperC c) else c) :: titleGo isA cs

/-- Python `str.title` (ASCII). -/
def pyTitle (s : String) : String := String.mk (titleGo false s.data)

/-- Match a literal at the front of the input; return the rest on success. -/
def eatLit : List Char → List Char → Option (List Char)
  | [], l => some l
  | _ :: _, [] => none
  | p :: ps, c :: cs => bif p == c then eatLit ps cs else none

/-- Boolean prefix test on character lists. -/
def isPrefixL (p l : List Char) : Bool := (eatLit p l).isSome

/-- Python substring containment (`needle in hay`). -/
def containsSub : List Char → List Char → Bool
  | hay, needle =>
    bif isPrefixL needle hay then true
    else match hay with
      | [] => false
      | _ :: rest => containsSub rest needle

/-- Python `str.startswith` on strings. -/
def startsWithPy (s pre : String) : Bool := isPrefixL pre.data s.data

/-- Consume one-or-more characters of a class (greedy, maximal). -/
def eatRun1 (p : Char → Bool) (l : List Char) : Option (List Char × List Char) :=
  let r := l.takeWhile p
  bif r.isEmpty then none else some (r, l.dropWhile p)

/-- Numeric value of a digit list. -/
def digitsVal (ds : List Char) : Nat :=
  ds.foldl (fun a c => a * 10 + (c.toNat - 48)) 0

/-- Consume exactly two digits. -/
def eat2Digits : List Char → Option (Nat × List Char)
  | a :: b :: rest =>
    bif isDigitC a && isDigitC b then some (digitsVal [a, b], rest) else none
  | _ => none

/-- Consume exactly four digits. -/
def eat4Digits : List Char → Option (Nat × List Char)
  | a :: b :: c :: d :: rest =>
    bif isDigitC a && isDigitC b && isDigitC c && isDigitC d then
      some (digitsVal [a, b, c, d], rest)
    else none
  | _ => none

/-- Run a per-position matcher at every start position, leftmost first,
modelling `re.search`. -/
def scanFor (m : List Char → Option α) : List Char → Option α
  | [] => m []
  | l@(_ :: rest) =>
    match m l with
    | some v => some v
    | none => scanFor m rest

/-- Try counts from `k` down to `1` (greedy backtracking for a `+` quantifier). -/
def tryDown (f : Nat → Option α) : Nat → Option α
  | 0 => none
  | k + 1 =>
    match f (k + 1) with
    | some v => some v
    | none => tryDown f k

/-- Needle for the total-spend rule. -/
def tTotalSpent : List Char := "total spent".data

/-- Second needle for the total-spend rule. -/
def tHowMuch : List Char := "how much did i spend".data

/-- Third needle for the total-spend rule. -/
def tTotalSpend : List Char := "total spend".data

/-- Literal token list used by several scanners. -/
def tLast : List Char := "last".data

/-- Literal token list used by several scanners. -/
def tExpenses : List Char := "expenses".data

/-- Match `last\s+(\d+)\s+expenses` at the current position. -/
def matchLastAt (l : List Char) : Option Nat :=
  (eatLit tLast l).bind fun l1 =>
  (eatRun1 isPySpace l1).bind fun p1 =>
  (eatRun1 isDigitC p1.2).bind fun p2 =>
  (eatRun1 isPySpace p2.2).bind fun p3 =>
  (eatLit tExpenses p3.2).map fun _ => digitsVal p2.1

/-- `re.search(r"last\s+(\d+)\s+expenses", low)`: leftmost match's count. -/
def searchLastN (l : List Char) : Option Nat := scanFor matchLastAt l

/-- Match `summarize\s+last\s+(\d+)\s+expenses` at the current position. -/
def matchSummarizeAt (l : List Char) : Option Nat :=
  (eatLit "summarize".data l).bind fun l1 =>
  (eatRun1 isPySpace l1).bind fun p1 =>
  matchLastAt p1.2

/-- `re.search(r"summarize\s+last\s+(\d+)\s+expenses", low)`. -/
def searchSummarizeN (l : List Char) : Option Nat := scanFor matchSummarizeAt l

/-- Match `<word>\s+<word>\s+...\s+([a-zA-Z]+)\s+(\d{4})` style month/year
tails: one-or-more spaces, a letter run, spaces, then exactly four digits. -/
def matchMonthYearTail (l : List Char) : Option (List Char × Nat) :=
  (eatRun1 isPySpace l).bind fun p0 =>
  (eatRun1 isAsciiAlpha p0.2).bind fun p1 =>
  (eatRun1 isPySpace p1.2).bind fun p2 =>
  (eat4Digits p2.2).map fun p3 => (p1.1, p3.1)

/-- Match `monthly\s+total\s+for\s+([a-zA-Z]+)\s+(\d{4})` at the position. -/
def matchMonthlyAt (l : List Char) : Option (List Char × Nat) :=
  (eatLit "monthly".data l).bind fun l1 =>
  (eatRun1 isPySpace l1).bind fun p1 =>
  (eatLit "total".data p1.2).bind fun l2 =>
  (eatRun1 isPySpace l2).bind fun p2 =>
  (eatLit "for".data p2.2).bind fun l3 =>
  matchMonthYearTail l3

/-- `re.search(r"monthly\s+total\s+for\s+([a-zA-Z]+)\s+(\d{4})", low)`. -/
def searchMonthly (l : List Char) : Option (List Char × Nat) :=
  scanFor matchMonthlyAt l

/-- Match `spend\s+in\s+([a-zA-Z]+)\s+(\d{4})` at the position. -/
def matchSpendInAt (l : List Char) : Option (List Char × Nat) :=
  (eatLit "spend".data l).bind fun l1 =>
  (eatRun1 isPySpace l1).bind fun p1 =>
  (eatLit "in".data p1.2).bind fun l2 =>
  matchMonthYearTail l2

/-- `re.search(r"spend\s+in\s+([a-zA-Z]+)\s+(\d{4})", low)`. -/
def searchSpendIn (l : List Char) : Option (List Char × Nat) :=
  scanFor matchSpendInAt l

/-- Consume a `\d{4}-\d{2}-\d{2}` group, returning year/month/day numbers. -/
def eatIso (l : List Char) : Option ((Nat × Nat × Nat) × List Char) :=
  (eat4Digits l).bind fun p1 =>
  (eatLit "-".data p1.2).bind fun l1 =>
  (eat2Digits l1).bind fun p2 =>
  (eatLit "-".data p2.2).bind fun l2 =>
  (eat2Digits l2).map fun p3 => ((p1.1, p2.1, p3.1), p3.2)

/-- Match `expenses\s+between\s+(iso)\s+and\s+(iso)` at the position. -/
def matchBetweenAt (l : List Char) : Option ((Nat × Nat × Nat) × (Nat × Nat × Nat)) :=
  (eatLit tExpenses l).bind fun l1 =>
  (eatRun1 isPySpace l1).bind fun p1 =>
  (eatLit "between".data p1.2).bind fun l2 =>
  (eatRun1 isPySpace l2).bind fun p2 =>
  (eatIso p2.2).bind fun q1 =>
  (eatRun1 isPySpace q1.2).bind fun p3 =>
  (eatLit "and".data p3.2).bind fun l3 =>
  (eatRun1 isPySpace l3).bind fun p4 =>
  (eatIso p4.2).map fun q2 => (q1.1, q2.1)

/-- `re.search` for the expenses-between-dates pattern. -/
def searchBetween (l : List Char) : Option ((Nat × Nat × Nat) × (Nat × Nat × Nat)) :=
  scanFor matchBetweenAt l

/-- Character class `[a-zA-Z\s]` of the compare pattern. -/
def isCompareCls (c : Char) : Bool := isAsciiAlpha c || isPySpace c

/-- Backtracking matcher for `\s+([a-zA-Z\s]+)\s+vs\s+([a-zA-Z\s]+)` (the part
of the compare pattern after the literal `compare`), greedy longest-first as
Python's engine tries it. -/
def matchCompareTail (l : List Char) : Option (List Char × List Char) :=
  tryDown (fun k1 =>
    let l1 := l.drop k1
    tryDown (fun k2 =>
      let g1 := l1.take k2
      let l2 := l1.drop k2
      tryDown (fun k3 =>
        let l3 := l2.drop k3
        (eatLit "vs".data l3).bind fun l4 =>
        tryDown (fun k4 =>
          let l5 := l4.drop k4
          let g2 := l5.takeWhile isCompareCls
          bif g2.isEmpty then none else some (g1, g2))
          (l4.takeWhile isPySpace).length)
        (l2.takeWhile isPySpace).length)
      (l1.takeWhile isCompareCls).length)
    (l.takeWhile isPySpace).length

/-- `re.search(r"compare\s+([a-zA-Z\s]+)\s+vs\s+([a-zA-Z\s]+)", low)`:
the two captured groups. -/
def searchCompare (l : List Char) : Option (List Char × List Char) :=
  scanFor (fun s => (eatLit "compare".data s).bind matchCompareTail) l

/-- Month numbers that the external date parser accepts for
`pd.to_datetime("01 <name> <year>", dayfirst=True)`: full English month names
and their standard abbreviations, lower-case (the query was lower-cased).
Modelled from the external dateutil parser's month table. -/
def monthFromName (mn : List Char) : Option Nat :=
  (([("january", 1), ("february", 2), ("march", 3), ("april", 4), ("may", 5),
     ("june", 6), ("july", 7), ("august", 8), ("september", 9), ("october", 10),
     ("november", 11), ("december", 12), ("jan", 1), ("feb", 2), ("mar", 3),
     ("apr", 4), ("jun", 6), ("jul", 7), ("aug", 8), ("sep", 9), ("sept", 9),
     ("oct", 10), ("nov", 11), ("dec", 12)] : List (String × Nat)).find?
    (fun p => p.1.data == mn)).map (fun p => p.2)

/-- Pandas `Timestamp` range check for the first day of a month: nanosecond
timestamps only exist between 1677-09-21 and 2262-04-11, and `pd.to_datetime`
raises outside that range. -/
def tsOk (m y : Nat) : Bool :=
  (1678 ≤ y && y ≤ 2261) || (y == 1677 && 10 ≤ m) || (y == 2262 && m ≤ 4)

/-- Model of `pd.to_datetime(f"01 {month_name} {year}", dayfirst=True).month`:
`none` models the raised exception. -/
def monthParse (mn : List Char) (y : Nat) : Option Nat :=
  (monthFromName mn).bind fun m => bif tsOk m y then some m else none

/-- A calendar date (the payload of a parsed `Date` cell). -/
structure Ymd where
  y : Nat
  m : Nat
  d : Nat
deriving DecidableEq, Repr

/-- Gregorian leap-year test. -/
def isLeap (y : Nat) : Bool := (y % 4 == 0 && y % 100 != 0) || y % 400 == 0

/-- Days in a month. -/
def daysIn (y m : Nat) : Nat :=
  if m == 2 then (bif isLeap y then 29 else 28)
  else if m == 4 || m == 6 || m == 9 || m == 11 then 30
  else 31

/-- Lexicographic date comparison. -/
def ymdLeB (a b : Ymd) : Bool :=
  a.y < b.y || (a.y == b.y && (a.m < b.m || (a.m == b.m && a.d ≤ b.d)))

/-- Model of `pd.to_datetime("<yyyy-mm-dd>")` on the captured ISO group:
calendar validity plus the pandas `Timestamp` range; `none` models the raised
exception. -/
def isoParse (t : Nat × Nat × Nat) : Option Ymd :=
  let y := t.1; let m := t.2.1; let d := t.2.2
  bif (1 ≤ m && m ≤ 12) && (1 ≤ d && d ≤ daysIn y m) &&
      ymdLeB ⟨1677, 9, 21⟩ ⟨y, m, d⟩ && ymdLeB ⟨y, m, d⟩ ⟨2262, 4, 11⟩ then
    some ⟨y, m, d⟩
  else none

/-- Date ordering with missing dates (`NaT`) last, matching the order
`load_data` leaves rows in after `sort_values('Date')`. -/
def optDateLe (a b : Option Ymd) : Bool :=
  match a, b with
  | some x, some z => ymdLeB x z
  | some _, none => true
  | none, none => true
  | none, some _ => false

/-- Exact rational number: the value is `n / (d + 1)`.  The denominator is
stored minus one so every `Q` is well-formed; all operations are plain
integer arithmetic. -/
structure Q where
  n : Int
  d : Nat
deriving DecidableEq

/-- The (always positive) denominator as an integer. -/
def Q.den (q : Q) : Int := ((q.d + 1 : Nat) : Int)

/-- Embed an integer. -/
def Q.ofInt (i : Int) : Q := ⟨i, 0⟩

/-- Zero. -/
def Q.zero : Q := ⟨0, 0⟩

/-- Addition (no normalisation needed; only values are ever compared). -/
def Q.add (a b : Q) : Q :=
  ⟨a.n * b.den + b.n * a.den, (a.d + 1) * (b.d + 1) - 1⟩

/-- Division by a natural number (used for the daily average). -/
def Q.divNat (a : Q) (k : Nat) : Q := ⟨a.n, (a.d + 1) * k - 1⟩

/-- Value comparison `a ≤ b`. -/
def Q.leB (a b : Q) : Bool := decide (a.n * b.den ≤ b.n * a.den)

/-- Value comparison `a < b`. -/
def Q.ltB (a b : Q) : Bool := decide (a.n * b.den < b.n * a.den)

/-- Value equality. -/
def Q.eqB (a b : Q) : Bool := decide (a.n * b.den = b.n * a.den)

/-- Sum of a list of rationals. -/
def sumQ (l : List Q) : Q := l.foldr Q.add Q.zero

/-- Two-digit zero-padded rendering. -/
def pad2 (n : Nat) : String := if n < 10 then "0" ++ toString n else toString n

/-- Four-digit zero-padded rendering (year field of a timestamp). -/
def pad4 (n : Nat) : String :=
  if n < 10 then "000" ++ toString n
  else if n < 100 then "00" ++ toString n
  else if n < 1000 then "0" ++ toString n
  else toString n

/-- Model of Python's `f"{x:.2f}"` on an exact amount: round `q * 100` to an
integer, ties to even, then print with two decimals. -/
def fmt2 (q : Q) : String :=
  let a := q.n * 100
  let b := q.den
  let f := Int.fdiv a b
  let rem := a - f * b
  let n := if 2 * rem < b then f
           else if b < 2 * rem then f + 1
           else if f % 2 = 0 then f else f + 1
  let sgn := if n < 0 then "-" else ""
  let m := n.natAbs
  sgn ++ toString (m / 100) ++ "." ++ pad2 (m % 100)

/-- ISO rendering of a date (`Timestamp.date()` / date-only column cell). -/
def isoOf (dt : Ymd) : String := pad4 dt.y ++ "-" ++ pad2 dt.m ++ "-" ++ pad2 dt.d

/-- Cell text of the `Date` column in a fixed-width preview (`NaT` for a
missing date; dates loaded at midnight display date-only). -/
def dateCell : Option Ymd → String
  | some dt => isoOf dt
  | none => "NaT"

/-- `str(Timestamp)` as used by `str(row.get("Date", ""))`. -/
def dateFull : Option Ymd → String
  | some dt => isoOf dt ++ " 00:00:00"
  | none => "NaT"

/-- Fractional decimal digits of `rem / b` with `0 ≤ rem < b`, up to the fuel. -/
def fracDigits : Nat → Int → Int → List Char
  | 0, _, _ => []
  | fuel + 1, rem, b =>
    if rem = 0 then []
    else
      let dg := Int.fdiv (rem * 10) b
      Char.ofNat (48 + dg.toNat) :: fracDigits fuel (rem * 10 - dg * b) b

/-- Model of the dataframe library's default float rendering in
`to_string` (e.g. `100.0`, `12.5`). -/
def floatStr (x : Q) : String :=
  let neg := x.n < 0
  let a := if neg then -x.n else x.n
  let b := x.den
  let ip := Int.fdiv a b
  let ds := fracDigits 6 (a - ip * b) b
  (if neg then "-" else "") ++ toString ip.toNat ++ "." ++
    (bif ds.isEmpty then "0" else String.mk ds)

/-- `Amount` cell in a fixed-width preview (`NaN` for a missing amount). -/
def floatCell : Option Q → String
  | some x => floatStr x
  | none => "NaN"

/-- Object-column cell in a fixed-width preview (`NaN` for a missing value). -/
def objCell : Option String → String
  | some s => s
  | none => "NaN"

/-- One expense record as the resolver sees it after `load_data`. -/
structure Row where
  pdate : Option Ymd
  category : Option String
  amount : Option Q
  note : Option String
deriving DecidableEq

/-- The loaded dataframe: rows plus column-presence flags. -/
structure Dataset where
  rows : List Row
  hasDate : Bool
  hasCategory : Bool
  hasAmount : Bool
  hasNote : Bool
deriving DecidableEq

/-- `Amount` with `fillna(0)`. -/
def amt0 (r : Row) : Q := r.amount.getD Q.zero

/-- Sum of amounts with missing amounts as zero. -/
def sumFill0 (rows : List Row) : Q := sumQ (rows.map amt0)

/-- `df.tail(n)`: the last `n` rows (all rows when fewer). -/
def tailN (rows : List Row) (n : Nat) : List Row := rows.drop (rows.length - n)

/-- Right-justify a cell to a column width (pandas pads with spaces). -/
def rightJust (w : Nat) (s : String) : String :=
  String.mk (List.replicate (w - s.length) (Char.ofNat 32)) ++ s

/-- Column widths: maximum of header and cell widths. -/
def colWidths (headers : List String) (rows : List (List String)) : List Nat :=
  rows.foldl (fun ws row => List.zipWith max ws (row.map String.length))
    (headers.map String.length)

/-- Model of `DataFrame.to_string(index=False)`: right-justified fixed-width
columns separated by single spaces, header line first. -/
def renderTable (headers : List String) (rows : List (List String)) : String :=
  let ws := colWidths headers rows
  String.intercalate "\n"
    ((String.intercalate " " (List.zipWith rightJust ws headers)) ::
      rows.map (fun row => String.intercalate " " (List.zipWith rightJust ws row)))

/-- Headers of `[c for c in ["Date","Category","Amount","Note"] if c in df.columns]`. -/
def previewHeaders (d : Dataset) : List String :=
  (bif d.hasDate then ["Date"] else []) ++
  (bif d.hasCategory then ["Category"] else []) ++
  (bif d.hasAmount then ["Amount"] else []) ++
  (bif d.hasNote then ["Note"] else [])

/-- Cells of one preview row, in the preview column order. -/
def rowCells (d : Dataset) (r : Row) : List String :=
  (bif d.hasDate then [dateCell r.pdate] else []) ++
  (bif d.hasCategory then [objCell r.category] else []) ++
  (bif d.hasAmount then [floatCell r.amount] else []) ++
  (bif d.hasNote then [objCell r.note] else [])

/-- `df.tail(n)[preview_cols].to_string(index=False)`. -/
def renderPreview (d : Dataset) (n : Nat) : String :=
  renderTable (previewHeaders d) ((tailN d.rows n).map (rowCells d))

/-- Clamp of the last-N count: `max(1, min(n, 50))`. -/
def clampN (n : Nat) : Nat := max 1 (min n 50)

/-- Index of the first occurrence of the maximal value (pandas `idxmax` on a
default integer index), over amounts with `fillna(0)`. -/
def idxmaxFirst : List Q → Nat
  | [] => 0
  | x :: xs =>
    match xs with
    | [] => 0
    | _ :: _ =>
      let j := idxmaxFirst xs
      bif Q.ltB x (xs.getD j Q.zero) then j + 1 else 0

/-- Index of the first occurrence of the minimal value (pandas `idxmin`). -/
def idxminFirst : List Q → Nat
  | [] => 0
  | x :: xs =>
    match xs with
    | [] => 0
    | _ :: _ =>
      let j := idxminFirst xs
      bif Q.ltB (xs.getD j Q.zero) x then j + 1 else 0

/-- Placeholder row for total list indexing (never selected on the nonempty
datasets the resolver body runs on). -/
def dfltRow : Row := ⟨none, none, none, none⟩

/-- `str(row.get("Category", ""))` for the largest/smallest messages. -/
def catGetStr (d : Dataset) (r : Row) : String :=
  bif d.hasCategory then
    (match r.category with
     | some c => c
     | none => "nan")
  else ""

/-- `str(row.get("Date", ""))` for the largest/smallest messages. -/
def dateGetStr (d : Dataset) (r : Row) : String :=
  bif d.hasDate then dateFull r.pdate else ""

/-- `float(row.get("Amount", 0))` rendered with `:.2f` (`nan` stays `nan`). -/
def amtGetStr (r : Row) : String :=
  match r.amount with
  | some a => fmt2 a
  | none => "nan"

/-- `str(row.get("Note", "")).strip()` for the largest/smallest messages. -/
def noteGetStr (d : Dataset) (r : Row) : String :=
  bif d.hasNote then
    (match r.note with
     | some s => pyStrip s
     | none => "nan")
  else ""

/-- The `"Largest expense: ..."` / `"Smallest expense: ..."` message body. -/
def extremeMsg (pre : String) (d : Dataset) (r : Row) : String :=
  let note := noteGetStr d r
  let notePart := bif note == "" then "" else " Note: " ++ note ++ "."
  pre ++ amtGetStr r ++ " on " ++ dateGetStr d r ++ " (" ++ catGetStr d r ++ ")." ++
    notePart

/-- Distinct lower-cased category labels, first-occurrence order.  The source
iterates a Python `set` whose order is unspecified; rules that depend on it are
additionally proved for every enumeration order via `answerWith`. -/
def knownCats (d : Dataset) : List String :=
  ((d.rows.filterMap (fun r => r.category)).map lowerS).eraseDups

/-- First category of the iteration order that occurs in the query
(`for cat in known_cats: if cat in low`). -/
def firstMatchedCat (catIter : List String) (low : List Char) : Option String :=
  catIter.find? (fun c => containsSub low c.data)

/-- Sum of amounts of rows whose lower-cased category equals the label
(`df[category_series.str.lower() == matched_cat]["Amount"].fillna(0).sum()`). -/
def catTotal (d : Dataset) (cat : String) : Q :=
  sumFill0 (d.rows.filter (fun r =>
    match r.category with
    | some c => lowerS c == cat
    | none => false))

/-- `_sum_cat`: amounts of rows whose category, via `astype(str).str.lower()`,
contains the phrase as a substring (`NaN` stringifies to `"nan"`). -/
def compareSum (d : Dataset) (name : List Char) : Q :=
  sumFill0 (d.rows.filter (fun r =>
    containsSub (lowerL (r.category.getD "nan").data) (lowerL name)))

/-- Rule 2 trigger: the three total-spend phrases. -/
def totalTrigger (low : List Char) : Bool :=
  containsSub low tTotalSpent || containsSub low tHowMuch ||
    containsSub low tTotalSpend

/-- Rule 2: total spend. -/
def ruleTotal (low : List Char) (d : Dataset) : Option String :=
  bif totalTrigger low then
    some ("You" ++ apos ++ "ve spent a total of ₹" ++ fmt2 (sumFill0 d.rows) ++ ".")
  else none

/-- Rule 3: last-N preview via the regex. -/
def ruleLastN (low : List Char) (d : Dataset) : Option String :=
  match searchLastN low with
  | some n => some (renderPreview d (clampN n))
  | none => none

/-- Rule 3b: the literal `"show last 5 expenses"` alias. -/
def ruleShow5 (low : List Char) (d : Dataset) : Option String :=
  bif containsSub low "show last 5 expenses".data then some (renderPreview d 5)
  else none

/-- Rule 4a: largest expense. -/
def ruleLargest (low : List Char) (d : Dataset) : Option String :=
  bif containsSub low "largest expense".data then
    some (extremeMsg "Largest expense: ₹" d
      (d.rows.getD (idxmaxFirst (d.rows.map amt0)) dfltRow))
  else none

/-- Rule 4b: smallest expense. -/
def ruleSmallest (low : List Char) (d : Dataset) : Option String :=
  bif containsSub low "smallest expense".data then
    some (extremeMsg "Smallest expense: ₹" d
      (d.rows.getD (idxminFirst (d.rows.map amt0)) dfltRow))
  else none

/-- Rule 5: average daily spend over rows with parseable dates. -/
def ruleAvg (low : List Char) (d : Dataset) : Option String :=
  bif containsSub low "average daily spend".data then
    (bif d.hasDate then
      (let valid := d.rows.filter (fun r => r.pdate.isSome)
       bif valid.isEmpty then
         some "Dates are not parseable to compute daily average."
       else
         let days := (valid.filterMap (fun r => r.pdate)).eraseDups
         bif days.isEmpty then some "No daily data available."
         else
           some ("Average daily spend: ₹" ++
             fmt2 ((sumFill0 valid).divNat days.length) ++ "."))
    else none)
  else none

/-- Rule 6: category mention, for a given set-iteration order. -/
def ruleCat (catIter : List String) (low : List Char) (d : Dataset) :
    Option String :=
  bif d.hasCategory then
    match firstMatchedCat catIter low with
    | some cat =>
      some ("You spent ₹" ++ fmt2 (catTotal d cat) ++ " on " ++ cat ++ ".")
    | none => none
  else none

/-- Rule 7: compare category A vs category B. -/
def ruleCompare (low : List Char) (d : Dataset) : Option String :=
  match searchCompare low with
  | some g =>
    bif d.hasCategory then
      let a := String.mk (pyStripL g.1)
      let b := String.mk (pyStripL g.2)
      let av := compareSum d a.data
      let bv := compareSum d b.data
      let winner := bif Q.leB bv av then a else b
      some (pyTitle a ++ ": ₹" ++ fmt2 av ++ " vs " ++ pyTitle b ++ ": ₹" ++
        fmt2 bv ++ " → Higher: " ++ pyTitle winner ++ ".")
    else none
  | none => none

/-- Rows whose date is in the given year and month. -/
def inMonth (valid : List Row) (y mo : Nat) : List Row :=
  valid.filter (fun r =>
    match r.pdate with
    | some dt => dt.y == y && dt.m == mo
    | none => false)

/-- Rule 8: monthly total for `<Month> <Year>` (date-parse failure falls
through as `none`, like the source's `except: pass`). -/
def ruleMonthly (low : List Char) (valid : List Row) : Option String :=
  match searchMonthly low with
  | some g =>
    bif valid.isEmpty then none
    else
      match monthParse g.1 g.2 with
      | some mo =>
        some ("Total for " ++ pyTitle (String.mk g.1) ++ " " ++ toString g.2 ++
          ": ₹" ++ fmt2 (sumFill0 (inMonth valid g.2 mo)) ++ ".")
      | none => none
  | none => none

/-- Rule 9: spend in `<Month> <Year>`. -/
def ruleSpendIn (low : List Char) (valid : List Row) : Option String :=
  match searchSpendIn low with
  | some g =>
    bif valid.isEmpty then none
    else
      match monthParse g.1 g.2 with
      | some mo =>
        some ("Spend in " ++ pyTitle (String.mk g.1) ++ " " ++ toString g.2 ++
          ": ₹" ++ fmt2 (sumFill0 (inMonth valid g.2 mo)) ++ ".")
      | none => none
  | none => none

/-- Rule 10: expenses between two ISO dates (inclusive). -/
def ruleBetween (low : List Char) (valid : List Row) : Option String :=
  match searchBetween low with
  | some g =>
    bif valid.isEmpty then none
    else
      match isoParse g.1, isoParse g.2 with
      | some s, some e =>
        some ("Total between " ++ isoOf s ++ " and " ++ isoOf e ++ ": ₹" ++
          fmt2 (sumFill0 (valid.filter (fun r =>
            match r.pdate with
            | some dt => ymdLeB s dt && ymdLeB dt e
            | none => false))) ++ ".")
      | _, _ => none
  | none => none

/-- Rules 8-10 as one block, guarded by the `Date` column being present. -/
def ruleDates (low : List Char) (d : Dataset) : Option String :=
  bif d.hasDate then
    let valid := d.rows.filter (fun r => r.pdate.isSome)
    match ruleMonthly low valid with
    | some s => some s
    | none =>
      match ruleSpendIn low valid with
      | some s => some s
      | none => ruleBetween low valid
  else none

/-- Rule 11: summarize last N expenses (default N=10 when the loose phrase
matches without a count). -/
def ruleSummarize (low : List Char) (d : Dataset) : Option String :=
  bif containsSub low "summarize last".data && containsSub low tExpenses then
    let n := clampN ((searchSummarizeN low).getD 10)
    let total := bif d.hasAmount then sumFill0 (tailN d.rows n) else Q.zero
    some ("Last " ++ toString n ++ " expenses (total ₹" ++ fmt2 total ++ "):\n" ++
      renderPreview d n)
  else none

/-- Pick the top (key, sum) pair: maximal sum, ties to the alphabetically
first title-cased key (the source sorts group keys and then sorts sums
descending). -/
def listLtB : List Char → List Char → Bool
  | [], [] => false
  | [], _ :: _ => true
  | _ :: _, [] => false
  | a :: as, b :: bs =>
    bif a.toNat < b.toNat then true
    else bif b.toNat < a.toNat then false
    else listLtB as bs

/-- Amount sum of rows whose title-cased category equals a group key. -/
def titleGroupSum (d : Dataset) (k : String) : Q :=
  sumFill0 (d.rows.filter (fun r =>
    match r.category with
    | some c => pyTitle c == k
    | none => false))

/-- Fold selecting the maximal-sum group (ties alphabetically first). -/
def pickTop (d : Dataset) : List String → Option (String × Q)
  | [] => none
  | k :: ks =>
    let v := titleGroupSum d k
    match pickTop d ks with
    | none => some (k, v)
    | some best =>
      bif Q.ltB best.2 v then some (k, v)
      else bif Q.ltB v best.2 then some best
      else bif listLtB k.data best.1.data then some (k, v) else some best

/-- Rule 12: top/highest category. -/
def ruleTop (low : List Char) (d : Dataset) : Option String :=
  bif (containsSub low "top".data && containsSub low "category".data) ||
      (containsSub low "highest".data && containsSub low "category".data) then
    bif d.hasCategory then
      match pickTop d (((d.rows.filterMap (fun r => r.category)).map pyTitle).eraseDups) with
      | some kv =>
        some ("Top category: " ++ kv.1 ++ " with ₹" ++ fmt2 kv.2 ++ ".")
      | none => some "No categorized expenses found."
    else some ("Couldn" ++ apos ++ "t find the " ++ apos ++ "Category" ++ apos ++
      " column in your data.")
  else none

/-- The final `"Sorry, I didn't understand"` message of the source. -/
def fallbackMsg : String :=
  "Sorry, I didn" ++ rquo ++ "t understand that. Try asking things like " ++
    apos ++ "total spent" ++ apos ++ ", " ++ apos ++ "food expenses" ++ apos ++
    ", or " ++ apos ++ "top category" ++ apos ++ "."

/-- The empty-dataset message. -/
def noDataMsg : String := "No expense data available yet. Add some expenses first."

/-- The missing-`Amount`-column message. -/
def amountColMsg : String :=
  "Couldn" ++ apos ++ "t find the " ++ apos ++ "Amount" ++ apos ++
    " column in your data."

/-- First `some` of the rule list, else the fallback (first match wins). -/
def firstHit (dflt : String) : List (Option String) → String
  | [] => dflt
  | none :: rest => firstHit dflt rest
  | some s :: _ => s

/-- The resolver body for a nonempty dataset, parameterised by the iteration
order of the distinct category labels (a Python `set` in the source). -/
def answerWith (catIter : List String) (q : String) (d : Dataset) : String :=
  let low := lowerL q.data
  bif d.hasAmount then
    firstHit fallbackMsg
      [ruleTotal low d, ruleLastN low d, ruleShow5 low d, ruleLargest low d,
       ruleSmallest low d, ruleAvg low d, ruleCat catIter low d,
       ruleCompare low d, ruleDates low d, ruleSummarize low d, ruleTop low d]
  else amountColMsg

/-- `_rule_based_answer` on a successfully loaded dataframe, with the
first-occurrence order standing in for the unspecified set order. -/
def ruleBasedAnswerD (q : String) (d : Dataset) : String :=
  bif d.rows.isEmpty then noDataMsg else answerWith (knownCats d) q d

/-- `_rule_based_answer`: the whole fallback resolver, with the loader outcome
as a parameter; `.error` models an exception reaching the outermost handler. -/
def ruleBasedAnswer (q : String) : Except String (Option Dataset) → String
  | Except.error e => "Error processing query: " ++ e
  | Except.ok none => noDataMsg
  | Except.ok (some d) => ruleBasedAnswerD q d

/-- The three failure prefixes `handle_query` looks for in the LLM answer. -/
def failPrefix1 : String := "ChatGPT integration is not configured"

/-- Second failure prefix. -/
def failPrefix2 : String :=
  "The " ++ apos ++ "openai" ++ apos ++ " package is not installed"

/-- Third failure prefix. -/
def failPrefix3 : String := "AI response error"

/-- The `startswith` dispatch of `handle_query`. -/
def startsAny (ai : String) : Bool :=
  startsWithPy ai failPrefix1 || startsWithPy ai failPrefix2 ||
    startsWithPy ai failPrefix3

/-- `handle_query`: the LLM's textual answer and the loader outcome are
parameters (both are external collaborators). -/
def handleQuery (userInput ai : String)
    (load : Except String (Option Dataset)) : String :=
  let query := pyStrip userInput
  if query = "" then "Please enter a question."
  else if startsAny ai then ruleBasedAnswer query load
  else ai

/-- Nonempty lists are not `isEmpty`. -/
theorem isEmpty_false_of_ne {α : Type} {l : List α} (h : l ≠ []) :
    l.isEmpty = false := by
  cases l with
  | nil => exact absurd rfl h
  | cons a as => rfl

/-- `firstHit` skips a missed rule. -/
theorem firstHit_none (dflt : String) (rest : List (Option String)) :
    firstHit dflt (none :: rest) = firstHit dflt rest := rfl

/-- `firstHit` returns the first hit. -/
theorem firstHit_some (dflt s : String) (rest : List (Option String)) :
    firstHit dflt (some s :: rest) = s := rfl

/-- A query without the total-spend phrases skips rule 2. -/
theorem ruleTotal_none (low : List Char) (d : Dataset)
    (h : totalTrigger low = false) : ruleTotal low d = none := by
  simp [ruleTotal, h]

/-- A query the last-N regex misses skips rule 3. -/
theorem ruleLastN_none (low : List Char) (d : Dataset)
    (h : searchLastN low = none) : ruleLastN low d = none := by
  simp [ruleLastN, h]

/-- A query without the show-last-5 phrase skips rule 3b. -/
theorem ruleShow5_none (low : List Char) (d : Dataset)
    (h : containsSub low "show last 5 expenses".data = false) :
    ruleShow5 low d = none := by
  simp [ruleShow5, h]

/-- A query without `largest expense` skips rule 4a. -/
theorem ruleLargest_none (low : List Char) (d : Dataset)
    (h : containsSub low "largest expense".data = false) :
    ruleLargest low d = none := by
  simp [ruleLargest, h]

/-- A query without `smallest expense` skips rule 4b. -/
theorem ruleSmallest_none (low : List Char) (d : Dataset)
    (h : containsSub low "smallest expense".data = false) :
    ruleSmallest low d = none := by
  simp [ruleSmallest, h]

/-- A query without `average daily spend` skips rule 5. -/
theorem ruleAvg_none (low : List Char) (d : Dataset)
    (h : containsSub low "average daily spend".data = false) :
    ruleAvg low d = none := by
  simp [ruleAvg, h]

/-- When no known category occurs in the query, rule 6 misses. -/
theorem ruleCat_none (low : List Char) (catIter : List String) (d : Dataset)
    (h : firstMatchedCat catIter low = none) : ruleCat catIter low d = none := by
  cases hc : d.hasCategory <;> simp [ruleCat, h, hc]

/-- A query the compare regex misses skips rule 7. -/
theorem ruleCompare_none (low : List Char) (d : Dataset)
    (h : searchCompare low = none) : ruleCompare low d = none := by
  simp [ruleCompare, h]

/-- When none of the three date regexes match, rules 8-10 miss. -/
theorem ruleDates_none (low : List Char) (d : Dataset)
    (h1 : searchMonthly low = none) (h2 : searchSpendIn low = none)
    (h3 : searchBetween low = none) : ruleDates low d = none := by
  cases hd : d.hasDate <;>
    simp [ruleDates, ruleMonthly, ruleSpendIn, ruleBetween, h1, h2, h3, hd]

/-- A query without the summarize phrases skips rule 11. -/
theorem ruleSummarize_none (low : List Char) (d : Dataset)
    (h : (containsSub low "summarize last".data && containsSub low tExpenses) =
      false) : ruleSummarize low d = none := by
  simp [ruleSummarize, h]

/-- A query without the top/highest-category phrases skips rule 12. -/
theorem ruleTop_none (low : List Char) (d : Dataset)
    (h : ((containsSub low "top".data && containsSub low "category".data) ||
          (containsSub low "highest".data && containsSub low "category".data)) =
      false) : ruleTop low d = none := by
  simp [ruleTop, h]

/-- Unfolding of the resolver on a nonempty dataset with an `Amount` column. -/
theorem answer_unfold (q : String) (d : Dataset) (hne : d.rows ≠ [])
    (hA : d.hasAmount = true) :
    ruleBasedAnswer q (Except.ok (some d)) =
      firstHit fallbackMsg
        [ruleTotal (lowerL q.data) d, ruleLastN (lowerL q.data) d,
         ruleShow5 (lowerL q.data) d, ruleLargest (lowerL q.data) d,
         ruleSmallest (lowerL q.data) d, ruleAvg (lowerL q.data) d,
         ruleCat (knownCats d) (lowerL q.data) d, ruleCompare (lowerL q.data) d,
         ruleDates (lowerL q.data) d, ruleSummarize (lowerL q.data) d,
         ruleTop (lowerL q.data) d] := by
  simp [ruleBasedAnswer, ruleBasedAnswerD, answerWith, isEmpty_false_of_ne hne, hA]

/-- Dropping while a predicate holds of every element drops everything. -/
theorem dropWhile_all {p : Char → Bool} {l : List Char}
    (h : ∀ c ∈ l, p c = true) : l.dropWhile p = [] := by
  induction l with
  | nil => rfl
  | cons c cs ih =>
    rw [List.dropWhile_cons, h c (List.mem_cons_self c cs)]
    exact ih (fun x hx => h x (List.mem_cons_of_mem _ hx))

/-- Stripping an all-whitespace character list leaves nothing. -/
theorem pyStripL_blank {l : List Char} (h : ∀ c ∈ l, isPySpace c = true) :
    pyStripL l = [] := by
  unfold pyStripL
  rw [dropWhile_all h]
  rfl

/-- C2: for every query, an empty (or absent) dataset makes the rule-based
resolver return the fixed explanatory message, with no rule failing. -/
theorem C2_claim (q : String) (d : Dataset) (h : d.rows = []) :
    ruleBasedAnswer q (Except.ok (some d)) = noDataMsg ∧
    ruleBasedAnswer q (Except.ok none) = noDataMsg := by
  constructor
  · simp [ruleBasedAnswer, ruleBasedAnswerD, h]
  · rfl

/-- Witness for C2 at a concrete query and the concrete empty dataset. -/
theorem C2_witness :
    (⟨[], true, true, true, true⟩ : Dataset).rows = [] ∧
    ruleBasedAnswer "how much did i spend"
      (Except.ok (some ⟨[], true, true, true, true⟩)) = noDataMsg :=
  ⟨rfl, (C2_claim "how much did i spend" ⟨[], true, true, true, true⟩ rfl).1⟩

/-- C3 fails as stated: on the empty dataset, `"total spent"` yields the
no-data message, not the formatted zero total. -/
theorem C3_counterexample :
    ruleBasedAnswer "total spent" (Except.ok (some ⟨[], true, true, true, true⟩))
      ≠ "You" ++ apos ++ "ve spent a total of ₹0.00." := by decide

/-- C3 (amended): for every dataset with at least one row and an `Amount`
column, `"total spent"` returns the `fillna(0)` sum of all amounts formatted
as currency with two decimals. -/
theorem C3_amended (d : Dataset) (hne : d.rows ≠ []) (hA : d.hasAmount = true) :
    ruleBasedAnswer "total spent" (Except.ok (some d)) =
      "You" ++ apos ++ "ve spent a total of ₹" ++ fmt2 (sumFill0 d.rows) ++ "." := by
  rw [answer_unfold _ d hne hA]
  have h1 : ruleTotal (lowerL "total spent".data) d =
      some ("You" ++ apos ++ "ve spent a total of ₹" ++ fmt2 (sumFill0 d.rows) ++
        ".") := by
    simp [ruleTotal, show totalTrigger (lowerL "total spent".data) = true from rfl]
  rw [h1, firstHit_some]

/-- Witness for C3 (amended) at a concrete two-row dataset. -/
theorem C3_witness :
    (⟨[⟨some ⟨2025, 8, 1⟩, some "Food", some (Q.ofInt 100), none⟩,
       ⟨some ⟨2025, 8, 2⟩, some "Travel", some (Q.ofInt 150), none⟩], true, true,
       true, true⟩ : Dataset).rows ≠ [] ∧
    ruleBasedAnswer "total spent"
      (Except.ok (some ⟨[⟨some ⟨2025, 8, 1⟩, some "Food", some (Q.ofInt 100), none⟩,
        ⟨some ⟨2025, 8, 2⟩, some "Travel", some (Q.ofInt 150), none⟩], true, true,
        true, true⟩)) = "You" ++ apos ++ "ve spent a total of ₹250.00." := by
  refine ⟨by decide, (C3_amended _ (by decide) rfl).trans ?_⟩
  decide

/-- C8: an exception escaping the loader inside the resolver's `try` block is
converted by the outermost handler into the `"Error processing query: ..."`
string; the resolver is a total function and never re-raises. -/
theorem C8_claim (q e : String) :
    ruleBasedAnswer q (Except.error e) = "Error processing query: " ++ e := rfl

/-- C9: for every non-blank input, `handle_query` returns the rule-based
answer exactly when the LLM answer starts with one of the three failure
prefixes, and returns the LLM answer verbatim otherwise (so a legitimate
answer starting with such a prefix is misrouted to the fallback). -/
theorem C9_claim (input ai : String) (load : Except String (Option Dataset))
    (h : pyStrip input ≠ "") :
    (startsAny ai = true →
      handleQuery input ai load = ruleBasedAnswer (pyStrip input) load) ∧
    (startsAny ai = false → handleQuery input ai load = ai) := by
  constructor <;> intro hs <;> simp [handleQuery, h, hs]

/-- Witness for C9: an error-prefixed LLM answer is routed to the fallback. -/
theorem C9_witness :
    pyStrip "hi" ≠ "" ∧
    handleQuery "hi" "AI response error: boom" (Except.ok none) =
      ruleBasedAnswer (pyStrip "hi") (Except.ok none) :=
  ⟨by decide,
    (C9_claim "hi" "AI response error: boom" (Except.ok none) (by decide)).1
      (by decide)⟩

/-- C10: blank input (empty or whitespace-only) makes `handle_query` return
the fixed prompt; the result does not depend on the LLM answer or on the
loaded dataset (both are universally quantified), modelling that neither is
consulted. -/
theorem C10_claim (s ai : String) (load : Except String (Option Dataset))
    (h : ∀ c ∈ s.data, isPySpace c = true) :
    handleQuery s ai load = "Please enter a question." := by
  have hs : pyStrip s = "" := by
    unfold pyStrip
    rw [pyStripL_blank h]
  simp [handleQuery, hs]

/-- Witness for C10 at a concrete whitespace input. -/
theorem C10_witness :
    (∀ c ∈ (" \t ".data), isPySpace c = true) ∧
    handleQuery " \t " "ignored" (Except.error "boom") = "Please enter a question." :=
  ⟨by decide, C10_claim " \t " "ignored" (Except.error "boom") (by decide)⟩

/-- Concrete four-row dataset, chronologically sorted, used by witnesses. -/
def DS4 : Dataset :=
  ⟨[⟨some ⟨2025, 7, 1⟩, some "Food", some (Q.ofInt 10), none⟩,
    ⟨some ⟨2025, 7, 5⟩, some "Bills", some (Q.ofInt 20), none⟩,
    ⟨some ⟨2025, 8, 2⟩, some "Food", some (Q.ofInt 30), none⟩,
    ⟨some ⟨2025, 8, 9⟩, some "Travel", some (Q.ofInt 40), none⟩], true, true,
    true, true⟩

/-- C4: on a nonempty dataset (with the accessor's columns, in the
chronological order `load_data` leaves it in), `"last 3 expenses"` renders
exactly the rows after dropping all but the final three — `min 3 |D|` rows,
each dated no earlier than every dropped row — and the count is clamped to
`[1, 50]`: `"last 999 expenses"` answers exactly like `"last 50 expenses"`
for every loader outcome. -/
theorem C4_claim (d : Dataset) (load : Except String (Option Dataset))
    (hne : d.rows ≠ []) (hA : d.hasAmount = true) (hD : d.hasDate = true)
    (hSorted : List.Pairwise (fun a b => optDateLe a.pdate b.pdate = true) d.rows) :
    ruleBasedAnswer "last 3 expenses" (Except.ok (some d)) =
      renderTable (previewHeaders d)
        ((d.rows.drop (d.rows.length - 3)).map (rowCells d)) ∧
    (d.rows.drop (d.rows.length - 3)).length = min 3 d.rows.length ∧
    (∀ x ∈ d.rows.take (d.rows.length - 3),
      ∀ y ∈ d.rows.drop (d.rows.length - 3), optDateLe x.pdate y.pdate = true) ∧
    ruleBasedAnswer "last 999 expenses" load =
      ruleBasedAnswer "last 50 expenses" load := by
  refine ⟨?_, ?_, ?_, ?_⟩
  · rw [answer_unfold _ d hne hA,
      ruleTotal_none (lowerL "last 3 expenses".data) d rfl, firstHit_none]
    have h2 : ruleLastN (lowerL "last 3 expenses".data) d =
        some (renderPreview d 3) := by
      simp [ruleLastN,
        show searchLastN (lowerL "last 3 expenses".data) = some 3 from rfl,
        show clampN 3 = 3 from rfl]
    rw [h2, firstHit_some]
    simp [renderPreview, tailN]
  · rw [List.length_drop]
    omega
  · have hx := hSorted
    rw [← List.take_append_drop (d.rows.length - 3) d.rows] at hx
    exact (List.pairwise_append.mp hx).2.2
  · cases load with
    | error e => rfl
    | ok od =>
      cases od with
      | none => rfl
      | some e =>
        by_cases he : e.rows = []
        · simp [ruleBasedAnswer, ruleBasedAnswerD, he]
        · cases hA2 : e.hasAmount with
          | false =>
            simp [ruleBasedAnswer, ruleBasedAnswerD, answerWith,
              isEmpty_false_of_ne he, hA2]
          | true =>
            rw [answer_unfold _ e he hA2, answer_unfold _ e he hA2,
              ruleTotal_none (lowerL "last 999 expenses".data) e rfl,
              ruleTotal_none (lowerL "last 50 expenses".data) e rfl,
              firstHit_none, firstHit_none]
            have ha : ruleLastN (lowerL "last 999 expenses".data) e =
                some (renderPreview e 50) := by
              simp [ruleLastN,
                show searchLastN (lowerL "last 999 expenses".data) = some 999
                  from rfl,
                show clampN 999 = 50 from rfl]
            have hb : ruleLastN (lowerL "last 50 expenses".data) e =
                some (renderPreview e 50) := by
              simp [ruleLastN,
                show searchLastN (lowerL "last 50 expenses".data) = some 50
                  from rfl,
                show clampN 50 = 50 from rfl]
            rw [ha, hb, firstHit_some, firstHit_some]

/-- Witness for C4 at the concrete sorted four-row dataset. -/
theorem C4_witness :
    DS4.rows ≠ [] ∧
    ruleBasedAnswer "last 3 expenses" (Except.ok (some DS4)) =
      renderTable (previewHeaders DS4)
        ((DS4.rows.drop (DS4.rows.length - 3)).map (rowCells DS4)) ∧
    ruleBasedAnswer "last 999 expenses" (Except.ok (some DS4)) =
      ruleBasedAnswer "last 50 expenses" (Except.ok (some DS4)) := by
  have h := C4_claim DS4 (Except.ok (some DS4)) (by decide) rfl rfl (by decide)
  exact ⟨by decide, h.1, h.2.2.2⟩

/-- The denominator of a `Q` is positive. -/
theorem Q.den_pos (a : Q) : (0 : Int) < a.den := by
  simp [Q.den]

/-- Value order on `Q` is reflexive. -/
theorem Q.leB_refl (a : Q) : Q.leB a a = true := by
  simp [Q.leB]

/-- Strict value order implies value order. -/
theorem Q.leB_of_ltB {a b : Q} (h : Q.ltB a b = true) : Q.leB a b = true := by
  simp [Q.ltB] at h
  simp [Q.leB]
  exact le_of_lt h

/-- Failed strict comparison gives the reverse comparison. -/
theorem Q.leB_of_not_ltB {a b : Q} (h : Q.ltB a b = false) : Q.leB b a = true := by
  simp [Q.ltB] at h
  simp [Q.leB]
  exact h

/-- Value order on `Q` is transitive. -/
theorem Q.leB_trans {a b c : Q} (h1 : Q.leB a b = true) (h2 : Q.leB b c = true) :
    Q.leB a c = true := by
  simp [Q.leB] at h1 h2 ⊢
  have ha := Q.den_pos a
  have hb := Q.den_pos b
  have hc := Q.den_pos c
  nlinarith [mul_le_mul_of_nonneg_right h1 (le_of_lt hc),
    mul_le_mul_of_nonneg_right h2 (le_of_lt ha)]

/-- Unfolding of `idxmaxFirst` on a two-or-more-element list. -/
theorem idxmaxFirst_cons (x y : Q) (ys : List Q) :
    idxmaxFirst (x :: y :: ys) =
      bif Q.ltB x ((y :: ys).getD (idxmaxFirst (y :: ys)) Q.zero) then
        idxmaxFirst (y :: ys) + 1
      else 0 := rfl

/-- Unfolding of `idxminFirst` on a two-or-more-element list. -/
theorem idxminFirst_cons (x y : Q) (ys : List Q) :
    idxminFirst (x :: y :: ys) =
      bif Q.ltB ((y :: ys).getD (idxminFirst (y :: ys)) Q.zero) x then
        idxminFirst (y :: ys) + 1
      else 0 := rfl

/-- `idxmaxFirst` returns the first index attaining the maximum (pandas
`idxmax` tie-breaking): every element is `≤` the selected one and every
earlier element is strictly smaller. -/
theorem idxmaxFirst_spec (l : List Q) (h : l ≠ []) :
    idxmaxFirst l < l.length ∧
    (∀ k, k < l.length →
      Q.leB (l.getD k Q.zero) (l.getD (idxmaxFirst l) Q.zero) = true) ∧
    (∀ k, k < idxmaxFirst l →
      Q.ltB (l.getD k Q.zero) (l.getD (idxmaxFirst l) Q.zero) = true) := by
  induction l with
  | nil => exact absurd rfl h
  | cons x xs ih =>
    cases xs with
    | nil =>
      refine ⟨by simp [idxmaxFirst], ?_, ?_⟩
      · intro k hk
        have hk0 : k = 0 := by
          simp at hk
          omega
        subst hk0
        simp [idxmaxFirst, Q.leB_refl]
      · intro k hk
        simp [idxmaxFirst] at hk
    | cons y ys =>
      obtain ⟨ih1, ih2, ih3⟩ := ih (by simp)
      cases hlt : Q.ltB x ((y :: ys).getD (idxmaxFirst (y :: ys)) Q.zero) with
      | true =>
        rw [idxmaxFirst_cons, hlt, cond_true]
        refine ⟨by simpa using Nat.succ_lt_succ ih1, ?_, ?_⟩
        · intro k hk
          cases k with
          | zero =>
            rw [List.getD_cons_zero, List.getD_cons_succ]
            exact Q.leB_of_ltB hlt
          | succ k =>
            rw [List.getD_cons_succ, List.getD_cons_succ]
            exact ih2 k (by simpa using Nat.lt_of_succ_lt_succ hk)
        · intro k hk
          cases k with
          | zero =>
            rw [List.getD_cons_zero, List.getD_cons_succ]
            exact hlt
          | succ k =>
            rw [List.getD_cons_succ, List.getD_cons_succ]
            exact ih3 k (Nat.lt_of_succ_lt_succ hk)
      | false =>
        rw [idxmaxFirst_cons, hlt, cond_false]
        refine ⟨by simp, ?_, ?_⟩
        · intro k hk
          cases k with
          | zero => exact Q.leB_refl x
          | succ k =>
            rw [List.getD_cons_succ, List.getD_cons_zero]
            exact Q.leB_trans (ih2 k (by simpa using Nat.lt_of_succ_lt_succ hk))
              (Q.leB_of_not_ltB hlt)
        · intro k hk
          exact absurd hk (Nat.not_lt_zero k)

/-- `idxminFirst` returns the first index attaining the minimum (pandas
`idxmin` tie-breaking). -/
theorem idxminFirst_spec (l : List Q) (h : l ≠ []) :
    idxminFirst l < l.length ∧
    (∀ k, k < l.length →
      Q.leB (l.getD (idxminFirst l) Q.zero) (l.getD k Q.zero) = true) ∧
    (∀ k, k < idxminFirst l →
      Q.ltB (l.getD (idxminFirst l) Q.zero) (l.getD k Q.zero) = true) := by
  induction l with
  | nil => exact absurd rfl h
  | cons x xs ih =>
    cases xs with
    | nil =>
      refine ⟨by simp [idxminFirst], ?_, ?_⟩
      · intro k hk
        have hk0 : k = 0 := by
          simp at hk
          omega
        subst hk0
        simp [idxminFirst, Q.leB_refl]
      · intro k hk
        simp [idxminFirst] at hk
    | cons y ys =>
      obtain ⟨ih1, ih2, ih3⟩ := ih (by simp)
      cases hlt : Q.ltB ((y :: ys).getD (idxminFirst (y :: ys)) Q.zero) x with
      | true =>
        rw [idxminFirst_cons, hlt, cond_true]
        refine ⟨by simpa using Nat.succ_lt_succ ih1, ?_, ?_⟩
        · intro k hk
          cases k with
          | zero =>
            rw [List.getD_cons_zero, List.getD_cons_succ]
            exact Q.leB_of_ltB hlt
          | succ k =>
            rw [List.getD_cons_succ, List.getD_cons_succ]
            exact ih2 k (by simpa using Nat.lt_of_succ_lt_succ hk)
        · intro k hk
          cases k with
          | zero =>
            rw [List.getD_cons_zero, List.getD_cons_succ]
            exact hlt
          | succ k =>
            rw [List.getD_cons_succ, List.getD_cons_succ]
            exact ih3 k (Nat.lt_of_succ_lt_succ hk)
      | false =>
        rw [idxminFirst_cons, hlt, cond_false]
        refine ⟨by simp, ?_, ?_⟩
        · intro k hk
          cases k with
          | zero => exact Q.leB_refl x
          | succ k =>
            rw [List.getD_cons_zero, List.getD_cons_succ]
            exact Q.leB_trans (Q.leB_of_not_ltB hlt)
              (ih2 k (by simpa using Nat.lt_of_succ_lt_succ hk))
        · intro k hk
          exact absurd hk (Nat.not_lt_zero k)

/-- Concrete dataset with a tied maximal amount (rows 1 and 2 both 7). -/
def DSTie : Dataset :=
  ⟨[⟨some ⟨2025, 8, 1⟩, some "Food", some (Q.ofInt 5), some ""⟩,
    ⟨some ⟨2025, 8, 2⟩, some "Food", some (Q.ofInt 7), some ""⟩,
    ⟨some ⟨2025, 8, 3⟩, some "Travel", some (Q.ofInt 7), some ""⟩,
    ⟨some ⟨2025, 8, 4⟩, some "Food", some (Q.ofInt 5), some ""⟩], true, true,
    true, true⟩

/-- C5: on a nonempty dataset whose maximal amount is shared by several rows,
`"largest expense"` answers with the row at `idxmaxFirst` — an index holding a
maximal amount with every earlier row strictly smaller, i.e. the
first-occurring maximal row in the dataset's current order — and
symmetrically `"smallest expense"` answers with the first-occurring minimal
row. -/
theorem C5_claim (d : Dataset) (hne : d.rows ≠ []) (hA : d.hasAmount = true)
    (htie : ∃ i j, i < j ∧ j < d.rows.length ∧
      Q.eqB ((d.rows.map amt0).getD i Q.zero) ((d.rows.map amt0).getD j Q.zero) =
        true ∧
      ∀ k, k < d.rows.length →
        Q.leB ((d.rows.map amt0).getD k Q.zero) ((d.rows.map amt0).getD i Q.zero) =
          true) :
    (ruleBasedAnswer "largest expense" (Except.ok (some d)) =
        extremeMsg "Largest expense: ₹" d
          (d.rows.getD (idxmaxFirst (d.rows.map amt0)) dfltRow) ∧
      idxmaxFirst (d.rows.map amt0) < d.rows.length ∧
      (∀ k, k < d.rows.length →
        Q.leB ((d.rows.map amt0).getD k Q.zero)
          ((d.rows.map amt0).getD (idxmaxFirst (d.rows.map amt0)) Q.zero) = true) ∧
      (∀ k, k < idxmaxFirst (d.rows.map amt0) →
        Q.ltB ((d.rows.map amt0).getD k Q.zero)
          ((d.rows.map amt0).getD (idxmaxFirst (d.rows.map amt0)) Q.zero) = true)) ∧
    (ruleBasedAnswer "smallest expense" (Except.ok (some d)) =
        extremeMsg "Smallest expense: ₹" d
          (d.rows.getD (idxminFirst (d.rows.map amt0)) dfltRow) ∧
      idxminFirst (d.rows.map amt0) < d.rows.length ∧
      (∀ k, k < d.rows.length →
        Q.leB ((d.rows.map amt0).getD (idxminFirst (d.rows.map amt0)) Q.zero)
          ((d.rows.map amt0).getD k Q.zero) = true) ∧
      (∀ k, k < idxminFirst (d.rows.map amt0) →
        Q.ltB ((d.rows.map amt0).getD (idxminFirst (d.rows.map amt0)) Q.zero)
          ((d.rows.map amt0).getD k Q.zero) = true)) := by
  clear htie
  have hm : d.rows.map amt0 ≠ [] := by
    cases hr : d.rows with
    | nil => exact absurd hr hne
    | cons a as => simp [hr]
  obtain ⟨hx1, hx2, hx3⟩ := idxmaxFirst_spec (d.rows.map amt0) hm
  obtain ⟨hn1, hn2, hn3⟩ := idxminFirst_spec (d.rows.map amt0) hm
  rw [List.length_map] at hx1 hn1
  constructor
  · refine ⟨?_, hx1, ?_, hx3⟩
    · rw [answer_unfold _ d hne hA,
        ruleTotal_none (lowerL "largest expense".data) d rfl, firstHit_none,
        ruleLastN_none (lowerL "largest expense".data) d rfl, firstHit_none,
        ruleShow5_none (lowerL "largest expense".data) d rfl, firstHit_none]
      have h4 : ruleLargest (lowerL "largest expense".data) d =
          some (extremeMsg "Largest expense: ₹" d
            (d.rows.getD (idxmaxFirst (d.rows.map amt0)) dfltRow)) := by
        simp [ruleLargest,
          show containsSub (lowerL "largest expense".data)
            "largest expense".data = true from rfl]
      rw [h4, firstHit_some]
    · intro k hk
      exact hx2 k (by simpa using hk)
  · refine ⟨?_, hn1, ?_, hn3⟩
    · rw [answer_unfold _ d hne hA,
        ruleTotal_none (lowerL "smallest expense".data) d rfl, firstHit_none,
        ruleLastN_none (lowerL "smallest expense".data) d rfl, firstHit_none,
        ruleShow5_none (lowerL "smallest expense".data) d rfl, firstHit_none,
        ruleLargest_none (lowerL "smallest expense".data) d rfl, firstHit_none]
      have h5 : ruleSmallest (lowerL "smallest expense".data) d =
          some (extremeMsg "Smallest expense: ₹" d
            (d.rows.getD (idxminFirst (d.rows.map amt0)) dfltRow)) := by
        simp [ruleSmallest,
          show containsSub (lowerL "smallest expense".data)
            "smallest expense".data = true from rfl]
      rw [h5, firstHit_some]
    · intro k hk
      exact hn2 k (by simpa using hk)

/-- Witness for C5 at a concrete dataset with tied maximal amounts: the
first-occurring tied row (index 1) is reported. -/
theorem C5_witness :
    DSTie.rows ≠ [] ∧
    idxmaxFirst (DSTie.rows.map amt0) = 1 ∧
    ruleBasedAnswer "largest expense" (Except.ok (some DSTie)) =
      "Largest expense: ₹7.00 on 2025-08-02 00:00:00 (Food)." ∧
    ruleBasedAnswer "smallest expense" (Except.ok (some DSTie)) =
      "Smallest expense: ₹5.00 on 2025-08-01 00:00:00 (Food)." := by
  have h := C5_claim DSTie (by decide) rfl
    ⟨1, 2, by decide, by decide, by decide, by decide⟩
  exact ⟨by decide, by decide, h.1.1.trans (by decide), h.2.1.trans (by decide)⟩

/-- The dataset of claim C1: Food totals 100, Travel totals 150. -/
def DS1 : Dataset :=
  ⟨[⟨some ⟨2025, 8, 1⟩, some "Food", some (Q.ofInt 100), some ""⟩,
    ⟨some ⟨2025, 8, 2⟩, some "Travel", some (Q.ofInt 150), some ""⟩], true, true,
    true, true⟩

/-- A list permuting a two-element list of distinct elements is one of its two
orderings. -/
theorem perm_pair {a b : String} (hab : a ≠ b) {l : List String}
    (h : l.Perm [a, b]) : l = [a, b] ∨ l = [b, a] := by
  have hlen : l.length = 2 := by simpa using h.length_eq
  match l, hlen with
  | [x, y], _ =>
    have hx : x ∈ [a, b] := h.mem_iff.mp (by simp)
    have hy : y ∈ [a, b] := h.mem_iff.mp (by simp)
    simp at hx hy
    rcases hx with hx | hx <;> rcases hy with hy | hy
    · exfalso
      have hb : b ∈ [x, y] := h.mem_iff.mpr (by simp)
      rw [hx, hy] at hb
      simp at hb
      exact hab hb.symm
    · exact Or.inl (by rw [hx, hy])
    · exact Or.inr (by rw [hx, hy])
    · exfalso
      have ha : a ∈ [x, y] := h.mem_iff.mpr (by simp)
      rw [hx, hy] at ha
      simp at ha
      exact hab ha

/-- C1 fails as stated: the category-mention rule precedes the compare rule
and `"food"` occurs in the query, so the compare answer is not returned. -/
theorem C1_counterexample :
    ruleBasedAnswer "compare food vs travel" (Except.ok (some DS1)) ≠
      "Food: ₹100.00 vs Travel: ₹150.00 → Higher: Travel." := by decide

/-- C1 (amended): on the claim's dataset, for every iteration order of the
distinct category set, `"compare food vs travel"` is answered by the earlier
category-mention rule — the total of one mentioned category — and never by
the compare rule's comparison string. -/
theorem C1_amended (catIter : List String)
    (hperm : catIter.Perm (knownCats DS1)) :
    (answerWith catIter "compare food vs travel" DS1 =
        "You spent ₹100.00 on food." ∨
      answerWith catIter "compare food vs travel" DS1 =
        "You spent ₹150.00 on travel.") ∧
    answerWith catIter "compare food vs travel" DS1 ≠
      "Food: ₹100.00 vs Travel: ₹150.00 → Higher: Travel." := by
  have h2 : knownCats DS1 = ["food", "travel"] := by decide
  rw [h2] at hperm
  rcases perm_pair (by decide) hperm with h | h <;> subst h
  · exact ⟨Or.inl (by decide), by decide⟩
  · exact ⟨Or.inr (by decide), by decide⟩

/-- Witness for C1 (amended) at the first-occurrence iteration order. -/
theorem C1_witness :
    (["food", "travel"] : List String).Perm (knownCats DS1) ∧
    answerWith ["food", "travel"] "compare food vs travel" DS1 =
      "You spent ₹100.00 on food." := by
  have hp : (["food", "travel"] : List String).Perm (knownCats DS1) := by decide
  refine ⟨hp, ?_⟩
  rcases (C1_amended ["food", "travel"] hp).1 with h | h
  · exact h
  · exact absurd h (by decide)

/-- Dataset whose only row has an unparseable date (`NaT` after coercion). -/
def DSNoParse : Dataset :=
  ⟨[⟨none, some "Misc", some (Q.ofInt 5), some ""⟩], true, true, true, true⟩

/-- C6 fails as stated: when no record has a parseable date, no record matches
August 2025, yet the rule falls through (`if m and not tmp.empty`) and the
fallback message is returned instead of a ₹0.00 total. -/
theorem C6_counterexample :
    ruleBasedAnswer "monthly total for august 2025"
      (Except.ok (some DSNoParse)) ≠ "Total for August 2025: ₹0.00." := by decide

/-- C6 (amended): on a nonempty dataset with the accessor's columns, at least
one parseable date, and no category label occurring in the query, the monthly
rule sums exactly the amounts of records dated in August 2025 — a sum over an
empty selection giving ₹0.00 — while with no parseable dates at all the rule
instead falls through to the fallback. -/
theorem C6_amended (d : Dataset) (hne : d.rows ≠ []) (hA : d.hasAmount = true)
    (hD : d.hasDate = true)
    (hcat : ∀ c ∈ knownCats d,
      containsSub (lowerL "monthly total for august 2025".data) c.data = false)
    (hvalid : ∃ r ∈ d.rows, r.pdate.isSome = true) :
    ruleBasedAnswer "monthly total for august 2025" (Except.ok (some d)) =
      "Total for August 2025: ₹" ++
        fmt2 (sumFill0 (inMonth (d.rows.filter (fun r => r.pdate.isSome)) 2025 8))
        ++ "." := by
  have hfm : firstMatchedCat (knownCats d)
      (lowerL "monthly total for august 2025".data) = none := by
    unfold firstMatchedCat
    rw [List.find?_eq_none]
    intro c hc
    simp [hcat c hc]
  have hv : (d.rows.filter (fun r => r.pdate.isSome)).isEmpty = false := by
    obtain ⟨r, hr, hs⟩ := hvalid
    have hmem : r ∈ d.rows.filter (fun r => r.pdate.isSome) :=
      List.mem_filter.mpr ⟨hr, hs⟩
    refine isEmpty_false_of_ne ?_
    intro hcon
    rw [hcon] at hmem
    exact absurd hmem (List.not_mem_nil r)
  have h8 : ruleMonthly (lowerL "monthly total for august 2025".data)
      (d.rows.filter (fun r => r.pdate.isSome)) =
      some ("Total for " ++ pyTitle (String.mk "august".data) ++ " " ++
        toString 2025 ++ ": ₹" ++
        fmt2 (sumFill0 (inMonth (d.rows.filter (fun r => r.pdate.isSome)) 2025 8))
        ++ ".") := by
    simp [ruleMonthly,
      show searchMonthly (lowerL "monthly total for august 2025".data) =
        some ("august".data, 2025) from rfl,
      hv, show monthParse "august".data 2025 = some 8 from rfl]
  have h9 : ruleDates (lowerL "monthly total for august 2025".data) d =
      some ("Total for " ++ pyTitle (String.mk "august".data) ++ " " ++
        toString 2025 ++ ": ₹" ++
        fmt2 (sumFill0 (inMonth (d.rows.filter (fun r => r.pdate.isSome)) 2025 8))
        ++ ".") := by
    simp only [ruleDates, hD, cond_true, h8]
  rw [answer_unfold _ d hne hA,
    ruleTotal_none (lowerL "monthly total for august 2025".data) d rfl,
    firstHit_none,
    ruleLastN_none (lowerL "monthly total for august 2025".data) d rfl,
    firstHit_none,
    ruleShow5_none (lowerL "monthly total for august 2025".data) d rfl,
    firstHit_none,
    ruleLargest_none (lowerL "monthly total for august 2025".data) d rfl,
    firstHit_none,
    ruleSmallest_none (lowerL "monthly total for august 2025".data) d rfl,
    firstHit_none,
    ruleAvg_none (lowerL "monthly total for august 2025".data) d rfl,
    firstHit_none,
    ruleCat_none (lowerL "monthly total for august 2025".data) (knownCats d) d hfm,
    firstHit_none,
    ruleCompare_none (lowerL "monthly total for august 2025".data) d rfl,
    firstHit_none, h9, firstHit_some,
    show ("Total for " ++ pyTitle (String.mk "august".data) ++ " " ++
      toString 2025 ++ ": ₹" : String) = "Total for August 2025: ₹" from rfl]

/-- Witness for C6 (amended): one August-2025 row (40) and one July row (7);
the reported total is ₹40.00. -/
theorem C6_witness :
    (∃ r ∈ DS4.rows, r.pdate.isSome = true) ∧
    ruleBasedAnswer "monthly total for august 2025" (Except.ok (some DS4)) =
      "Total for August 2025: ₹70.00." := by
  have h := C6_amended DS4 (by decide) rfl rfl (by decide)
    ⟨⟨some ⟨2025, 7, 1⟩, some "Food", some (Q.ofInt 10), none⟩, by decide, rfl⟩
  exact ⟨⟨⟨some ⟨2025, 7, 1⟩, some "Food", some (Q.ofInt 10), none⟩, by decide,
    rfl⟩, h.trans (by decide)⟩

/-- C7 fails as stated: a query matching `summarize last (\d+) expenses` also
matches the earlier `last (\d+) expenses` rule, which fires first and returns
the plain preview without the summarize rule's total line. -/
theorem C7_counterexample :
    ruleBasedAnswer "summarize last 2 expenses" (Except.ok (some DS4)) ≠
      "Last 2 expenses (total ₹70.00):\n" ++ renderPreview DS4 2 := by decide

/-- C7 (amended): on a nonempty dataset with an `Amount` column, a query with
an explicit count such as `"summarize last 2 expenses"` is answered by the
earlier last-N rule (plain preview, count clamped); the summarize rule's
total-plus-preview output is produced only when the loose phrase matches
without a count, as in `"summarize last expenses"`, where N defaults to 10
(provided no category label occurs in that query). -/
theorem C7_amended (d : Dataset) (hne : d.rows ≠ []) (hA : d.hasAmount = true)
    (hcat : ∀ c ∈ knownCats d,
      containsSub (lowerL "summarize last expenses".data) c.data = false) :
    ruleBasedAnswer "summarize last 2 expenses" (Except.ok (some d)) =
      renderPreview d 2 ∧
    ruleBasedAnswer "summarize last expenses" (Except.ok (some d)) =
      "Last 10 expenses (total ₹" ++ fmt2 (sumFill0 (tailN d.rows 10)) ++
        "):\n" ++ renderPreview d 10 := by
  constructor
  · rw [answer_unfold _ d hne hA,
      ruleTotal_none (lowerL "summarize last 2 expenses".data) d rfl,
      firstHit_none]
    have h2 : ruleLastN (lowerL "summarize last 2 expenses".data) d =
        some (renderPreview d 2) := by
      simp [ruleLastN,
        show searchLastN (lowerL "summarize last 2 expenses".data) = some 2
          from rfl,
        show clampN 2 = 2 from rfl]
    rw [h2, firstHit_some]
  · have hfm : firstMatchedCat (knownCats d)
        (lowerL "summarize last expenses".data) = none := by
      unfold firstMatchedCat
      rw [List.find?_eq_none]
      intro c hc
      simp [hcat c hc]
    have h11 : ruleSummarize (lowerL "summarize last expenses".data) d =
        some ("Last " ++ toString 10 ++ " expenses (total ₹" ++
          fmt2 (sumFill0 (tailN d.rows 10)) ++ "):\n" ++ renderPreview d 10) := by
      simp [ruleSummarize,
        show (containsSub (lowerL "summarize last expenses".data)
            "summarize last".data &&
          containsSub (lowerL "summarize last expenses".data) tExpenses) = true
          from rfl,
        show searchSummarizeN (lowerL "summarize last expenses".data) = none
          from rfl,
        show clampN 10 = 10 from rfl, hA]
    rw [answer_unfold _ d hne hA,
      ruleTotal_none (lowerL "summarize last expenses".data) d rfl,
      firstHit_none,
      ruleLastN_none (lowerL "summarize last expenses".data) d rfl,
      firstHit_none,
      ruleShow5_none (lowerL "summarize last expenses".data) d rfl,
      firstHit_none,
      ruleLargest_none (lowerL "summarize last expenses".data) d rfl,
      firstHit_none,
      ruleSmallest_none (lowerL "summarize last expenses".data) d rfl,
      firstHit_none,
      ruleAvg_none (lowerL "summarize last expenses".data) d rfl,
      firstHit_none,
      ruleCat_none (lowerL "summarize last expenses".data) (knownCats d) d hfm,
      firstHit_none,
      ruleCompare_none (lowerL "summarize last expenses".data) d rfl,
      firstHit_none,
      ruleDates_none (lowerL "summarize last expenses".data) d rfl rfl rfl,
      firstHit_none, h11, firstHit_some,
      show ("Last " ++ toString 10 ++ " expenses (total ₹" : String) =
        "Last 10 expenses (total ₹" from rfl]

/-- Witness for C7 (amended) at the concrete four-row dataset. -/
theorem C7_witness :
    DS4.rows ≠ [] ∧
    ruleBasedAnswer "summarize last 2 expenses" (Except.ok (some DS4)) =
      renderPreview DS4 2 ∧
    ruleBasedAnswer "summarize last expenses" (Except.ok (some DS4)) =
      "Last 10 expenses (total ₹100.00):\n" ++ renderPreview DS4 10 := by
  have h := C7_amended DS4 (by decide) rfl (by decide)
  exact ⟨by decide, h.1, h.2.trans (by decide)⟩
